import Mathlib

/-!
Verification of the driver-dispatch and status-reconciliation engine of the
neutron-lbaas load-balancer control plane, by a shallow embedding of the
relevant Python source into Lean.

Conventions used throughout:
* Provisioning and operating statuses are `String`s, exactly as in the source
  (the source compares against constants such as `"ERROR"`, `"PENDING_DELETE"`,
  `"ONLINE"`, `"NO_MONITOR"`, `"DEGRADED"`).
* Side-effecting operations are embedded as pure functions returning the list
  of externally visible actions they perform (DB status transitions, driver
  invocations, spawned threads) together with the raised exception, if any.
* A Python dictionary key that may be absent is an `Option`.
-/

namespace NeutronLbaas

/-! ## Dispatcher failure handling
Source: `neutron_lbaas/services/loadbalancer/plugin.py`,
`LoadBalancerPluginv2._call_driver_operation` and `_handle_driver_error`. -/

/-- Exceptions a driver manager method may raise.  The two agent-scheduler
exceptions (`lbaas_agentschedulerv2.NoEligibleLbaasAgent`,
`lbaas_agentschedulerv2.NoActiveLbaasAgent`) are singled out by the
dispatcher's first `except` clause; everything else is an arbitrary
`Exception` carrying a message. -/
inductive DriverException where
  | NoEligibleLbaasAgent
  | NoActiveLbaasAgent
  | otherException (msg : String)
deriving DecidableEq, Repr

/-- What `_call_driver_operation` raises to its caller on driver failure:
either the agent-scheduler exception re-raised unchanged (`raise no_agent`),
or `loadbalancerv2.DriverError` wrapping the original cause
(`raise loadbalancerv2.DriverError(msg=e)`). -/
inductive DispatcherRaise where
  | reRaised (e : DriverException)
  | driverError (cause : DriverException)
deriving DecidableEq, Repr

/-- State the dispatcher's failure handler mutates: the provisioning status of
the entity's root load balancer (`db_entity.root_loadbalancer`). -/
structure DispatchState where
  rootLbProvisioningStatus : String
deriving DecidableEq, Repr

/-- Embeds `LoadBalancerPluginv2._handle_driver_error`: writes provisioning
status ERROR onto the root load balancer via `db.update_status`. -/
def handle_driver_error (st : DispatchState) : DispatchState :=
  { st with rootLbProvisioningStatus := "ERROR" }

/-- Embeds `LoadBalancerPluginv2._call_driver_operation`.  The invoked driver
manager method's outcome is `driverResult` (`none` = returned normally,
`some e` = raised `e`).  Returns the final dispatcher-visible state and what,
if anything, is raised to the caller.  The first `except` clause re-raises the
two agent-scheduler exceptions unchanged; any other exception triggers
`_handle_driver_error` and is wrapped in `DriverError`. -/
def call_driver_operation (st : DispatchState) (driverResult : Option DriverException) :
    DispatchState × Option DispatcherRaise :=
  match driverResult with
  | none => (st, none)
  | some DriverException.NoEligibleLbaasAgent =>
      (st, some (DispatcherRaise.reRaised DriverException.NoEligibleLbaasAgent))
  | some DriverException.NoActiveLbaasAgent =>
      (st, some (DispatcherRaise.reRaised DriverException.NoActiveLbaasAgent))
  | some e => (handle_driver_error st, some (DispatcherRaise.driverError e))

/-! ## Pool delete guard
Source: `neutron_lbaas/services/loadbalancer/plugin.py`,
`LoadBalancerPluginv2.delete_pool`. -/

/-- Externally visible actions `delete_pool` may perform, in order. -/
inductive PoolAction where
  | testAndSetStatus (status : String)
  | driverPoolDelete
deriving DecidableEq, Repr

/-- Typed errors of the v2 extension raised by the operations modelled here. -/
inductive LbaasV2Error where
  | EntityInUse (entityUsing entityInUse : String)
deriving DecidableEq, Repr

/-- Snapshot of the pool row as read by `self.db.get_pool` at the start of
`delete_pool`: its provisioning status and the id of the attached health
monitor, if any. -/
structure PoolSnapshot where
  provisioning_status : String
  healthmonitorId : Option String
deriving DecidableEq, Repr

/-- Embeds `LoadBalancerPluginv2.delete_pool`: if the pool has a health
monitor attached it raises `EntityInUse` immediately; otherwise it
test-and-sets the pool to PENDING_DELETE and invokes `driver.pool.delete`.
Returns the list of performed actions and the raised error, if any. -/
def delete_pool (pool : PoolSnapshot) : List PoolAction × Option LbaasV2Error :=
  match pool.healthmonitorId with
  | some _ => ([], some (LbaasV2Error.EntityInUse "healthmonitor" "pool"))
  | none =>
      ([PoolAction.testAndSetStatus "PENDING_DELETE", PoolAction.driverPoolDelete], none)

/-! ## Session persistence validation
Source: `neutron_lbaas/services/loadbalancer/plugin.py`,
`LoadBalancerPluginv2._validate_session_persistence_info`. -/

/-- Session persistence descriptor dictionary: a mandatory `type` key and an
optional `cookie_name` key (`none` = key absent). -/
structure SessionPersistenceInfo where
  type : String
  cookie_name : Option String
deriving DecidableEq, Repr

/-- Typed validation error raised by session-persistence validation. -/
inductive SPValidationError where
  | SessionPersistenceConfigurationInvalid
deriving DecidableEq, Repr

/-- Constant `lb_const.SESSION_PERSISTENCE_APP_COOKIE`. -/
def SESSION_PERSISTENCE_APP_COOKIE : String := "APP_COOKIE"

/-- Truthiness of the Python expression `sp_info.get('cookie_name')`: false
when the key is absent or its value is the empty string. -/
def cookieNameTruthy (sp : SessionPersistenceInfo) : Bool :=
  match sp.cookie_name with
  | some s => !(s == "")
  | none => false

/-- Embeds `_validate_session_persistence_info`.  An absent or empty
descriptor (`if not sp_info`) is accepted; for APP_COOKIE a truthy
`cookie_name` is required; for every other type the presence of the
`cookie_name` key is rejected. -/
def validate_session_persistence_info (sp_info : Option SessionPersistenceInfo) :
    Option SPValidationError :=
  match sp_info with
  | none => none
  | some info =>
      if info.type == SESSION_PERSISTENCE_APP_COOKIE then
        if !cookieNameTruthy info then
          some SPValidationError.SessionPersistenceConfigurationInvalid
        else none
      else
        if info.cookie_name.isSome then
          some SPValidationError.SessionPersistenceConfigurationInvalid
        else none

/-! ## Health-monitor delay/timeout validation (v1 plugin)
Source: `neutron_lbaas/services/loadbalancer/plugin.py`,
`LoadBalancerPlugin._validate_hm_parameters`, `create_health_monitor`,
`update_health_monitor`. -/

/-- Externally visible actions of the v1 health-monitor operations. -/
inductive HMV1Action where
  | createDbRow
  | updateDbRow
  | driverUpdatePoolHealthMonitor (poolId : String)
deriving DecidableEq, Repr

/-- Typed error raised by `_validate_hm_parameters`
(`lb_ext.DelayOrTimeoutInvalid`). -/
inductive LbaasV1Error where
  | DelayOrTimeoutInvalid
deriving DecidableEq, Repr

/-- Embeds `LoadBalancerPlugin._validate_hm_parameters`: raises iff
`delay < timeout`. -/
def validate_hm_parameters (delay timeout : Int) : Option LbaasV1Error :=
  if delay < timeout then some LbaasV1Error.DelayOrTimeoutInvalid else none

/-- Embeds `LoadBalancerPlugin.create_health_monitor`: validates the new
monitor's delay and timeout before the row is created. -/
def create_health_monitor (delay timeout : Int) :
    List HMV1Action × Option LbaasV1Error :=
  match validate_hm_parameters delay timeout with
  | some e => ([], some e)
  | none => ([HMV1Action.createDbRow], none)

/-- Embeds `LoadBalancerPlugin.update_health_monitor`: the effective delay and
timeout fall back to the stored values (`new_hm.get('delay',
old_hm.get('delay'))`), are validated before the row is modified, and on
success each pool association's driver is notified. -/
def update_health_monitor (newDelay newTimeout : Option Int) (oldDelay oldTimeout : Int)
    (poolAssociations : List String) : List HMV1Action × Option LbaasV1Error :=
  let delay := newDelay.getD oldDelay
  let timeout := newTimeout.getD oldTimeout
  match validate_hm_parameters delay timeout with
  | some e => ([], some e)
  | none =>
      (HMV1Action.updateDbRow ::
        poolAssociations.map HMV1Action.driverUpdatePoolHealthMonitor, none)

/-! ## Octavia async operation wrapper
Source: `neutron_lbaas/drivers/octavia/driver.py`, decorator `async_op`. -/

/-- Arguments with which `async_op` spawns the background `thread_op` thread
(`kwargs={'delete': d, 'lb_create': lb_create}`). -/
structure ThreadTask where
  delete : Bool
  lb_create : Bool
deriving DecidableEq, Repr

/-- Outcome of one `async_op`-wrapped driver call: the value returned or
exception re-raised, whether `failed_completion` was called on the entity, and
the background reconciliation threads started. -/
structure AsyncOpOutcome (R E : Type) where
  result : Except E R
  failedCompletionCalled : Bool
  startedThreads : List ThreadTask
deriving Repr

/-- Embeds the `async_op` decorator.  `funcName` is `func.__name__`;
`isLoadBalancerManager` is `isinstance(args[0], LoadBalancerManager)`; `call`
is the outcome of the wrapped driver call.  On normal return it starts exactly
one `thread_op` thread with the computed delete/lb_create flags and returns
the wrapped call's result; on exception it calls `failed_completion`, starts
no thread, and re-raises. -/
def async_op {R E : Type} (funcName : String) (isLoadBalancerManager : Bool)
    (call : Except E R) : AsyncOpOutcome R E :=
  let d := funcName == "delete"
  let lb_create := funcName == "create" && isLoadBalancerManager
  match call with
  | Except.ok r =>
      { result := Except.ok r, failedCompletionCalled := false,
        startedThreads := [⟨d, lb_create⟩] }
  | Except.error e =>
      { result := Except.error e, failedCompletionCalled := true,
        startedThreads := [] }

/-! ## Octavia asynchronous reconciler
Source: `neutron_lbaas/drivers/octavia/driver.py`, `thread_op`. -/

/-- Completion callback that `thread_op` invokes on the manager before it
returns: exactly one of `manager.successful_completion` and
`manager.failed_completion`. -/
inductive Completion where
  | successful_completion
  | failed_completion
deriving DecidableEq, Repr

/-- Success terminal check of the polling loop:
`prov_status == 'ACTIVE' or prov_status == 'DELETED'`. -/
def isSuccessStatus (s : String) : Bool := s == "ACTIVE" || s == "DELETED"

/-- Terminal statuses: the success statuses plus the error terminal
`'ERROR'`. -/
def isTerminalStatus (s : String) : Bool := isSuccessStatus s || s == "ERROR"

/-- Embeds the polling loop of `thread_op`.  Time is modelled discretely: each
`time.sleep(poll_interval)` advances the clock by `poll_interval` seconds and
polling itself takes no time, so the n-th poll happens at elapsed time
`n * poll_interval`; `backend n` is the `provisioning_status` string the n-th
poll of the remote Octavia load balancer reports.  The `while` guard is
`elapsed < poll_timeout`; leaving the loop without a terminal status calls
`failed_completion`.  `fuel` bounds the recursion; `thread_op` supplies fuel
that never runs out for a positive poll interval. -/
def thread_op_loop (backend : Nat → String) (poll_interval poll_timeout : Nat) :
    Nat → Nat → Option Completion
  | _, 0 => none
  | n, fuel + 1 =>
      if n * poll_interval < poll_timeout then
        let prov_status := backend n
        if isSuccessStatus prov_status then some Completion.successful_completion
        else if prov_status == "ERROR" then some Completion.failed_completion
        else thread_op_loop backend poll_interval poll_timeout (n + 1) fuel
      else some Completion.failed_completion

/-- Embeds `thread_op` (the status-convergence part: which completion callback
the reconciler task invokes, as a function of the sequence of statuses the
backend reports). -/
def thread_op (backend : Nat → String) (poll_interval poll_timeout : Nat) :
    Option Completion :=
  thread_op_loop backend poll_interval poll_timeout 0 (poll_timeout + 1)

/-! ## HAProxy namespace driver: per-server stats classification
Source: `neutron_lbaas/drivers/haproxy/namespace_driver.py`,
`HaproxyNSDriver._get_servers_stats`. -/

/-- Constant `STATS_TYPE_SERVER_RESPONSE` (the string discriminator in parsed
stats rows). -/
def STATS_TYPE_SERVER_RESPONSE : String := "2"

/-- One parsed stats row (a dictionary of strings produced by
`_parse_stats`); only the fields read by `_get_servers_stats` are kept. -/
structure StatRow where
  type : String
  svname : String
  status : String
  check_status : String
  chkfail : String
deriving DecidableEq, Repr

/-- Value stored per server in the returned stats dictionary
(`lb_const.STATS_STATUS` / `STATS_HEALTH` / `STATS_FAILED_CHECKS`). -/
structure ServerStats where
  status : String
  health : String
  failed_checks : String
deriving DecidableEq, Repr

/-- Entry built for one server row: INACTIVE when the reported status string
equals DOWN, ACTIVE otherwise, together with the health-check status and the
failed-check count. -/
def serverEntry (stats : StatRow) : ServerStats :=
  { status := if stats.status == "DOWN" then "INACTIVE" else "ACTIVE",
    health := stats.check_status,
    failed_checks := stats.chkfail }

/-- One step of the `res[stats['svname']] = {...}` loop body, on the
dictionary modelled as a partial map from server name to entry. -/
def serversStatsStep (res : String → Option ServerStats) (stats : StatRow) :
    String → Option ServerStats :=
  if stats.type == STATS_TYPE_SERVER_RESPONSE then
    fun n => if n = stats.svname then some (serverEntry stats) else res n
  else res

/-- Embeds `HaproxyNSDriver._get_servers_stats`: folds the loop body over the
parsed rows, starting from the empty dictionary `res = {}`. -/
def get_servers_stats (parsed_stats : List StatRow) : String → Option ServerStats :=
  parsed_stats.foldl serversStatsStep (fun _ => none)

/-! ## HAProxy namespace driver: load-balancer manager delete/create
Source: `neutron_lbaas/drivers/haproxy/namespace_driver.py`,
`LoadBalancerManager.delete`, `LoadBalancerManager.create`,
`HaproxyNSDriver.deployable`. -/

/-- Externally visible backend actions of the namespace-driver load-balancer
manager. -/
inductive HaproxyAction where
  | undeployInstance (delete_namespace : Bool)
  | refreshInstance
deriving DecidableEq, Repr

/-- Embeds `LoadBalancerManager.delete`: undeploys (with namespace deletion)
only when `self.driver.exists(loadbalancer.id)` reports a deployed instance;
otherwise it returns without doing anything and without raising. -/
def loadbalancer_manager_delete (instanceExists : Bool) : List HaproxyAction :=
  if instanceExists then [HaproxyAction.undeployInstance true] else []

/-- Listener fields read by `HaproxyNSDriver.deployable`. -/
structure HaListener where
  provisioning_status : String
  admin_state_up : Bool
deriving DecidableEq, Repr

/-- Load-balancer fields read by `HaproxyNSDriver.deployable` and
`LoadBalancerManager.create`. -/
structure HaLoadBalancer where
  provisioning_status : String
  admin_state_up : Bool
  listeners : List HaListener
deriving DecidableEq, Repr

/-- Embeds `HaproxyNSDriver.deployable`: true iff the load balancer is
present, has at least one acceptable listener (not PENDING_DELETE and
admin-enabled), is itself admin-enabled, and is not PENDING_DELETE. -/
def deployable (loadbalancer : Option HaLoadBalancer) : Bool :=
  match loadbalancer with
  | none => false
  | some lb =>
      let acceptable_listeners := lb.listeners.filter
        (fun listener => !(listener.provisioning_status == "PENDING_DELETE") &&
          listener.admin_state_up)
      !acceptable_listeners.isEmpty && lb.admin_state_up &&
        !(lb.provisioning_status == "PENDING_DELETE")

/-- Embeds `LoadBalancerManager.create`: with no listeners it does nothing
(haproxy will not start without a tcp port; this is treated as success);
otherwise it refreshes the instance. -/
def loadbalancer_manager_create (lb : HaLoadBalancer) : List HaproxyAction :=
  if lb.listeners.isEmpty then [] else [HaproxyAction.refreshInstance]

/-! ## Status tree report (read path)
Source: `neutron_lbaas/services/loadbalancer/plugin.py`,
`LoadBalancerPluginv2.statuses`, `_default_status`,
`_disable_entity_and_children`, `_set_degraded`, `_is_degraded`.

The report dictionaries are embedded keeping the fields the algorithm reads
and writes (`id`, `provisioning_status`, `operating_status`); the purely
decorative payload fields the source copies along (`name`, `type`, `action`,
`address`, `protocol_port`) are omitted.  An `operating_status` of `none`
models the key being absent from the dictionary (the `exclude=[OS]` paths for
l7 policies, l7 rules and health monitors).  Python local variables that leak
across loop iterations (`listener_status`, `hm_status`) are threaded
explicitly, including the runtime errors the source hits: item assignment on
the plugin object itself (`self._set_degraded(self, listener_status,
lb_status)`) and reference to a never-assigned local. -/

/-- Runtime errors the statuses walk can raise. -/
inductive PyError where
  | typeErrorPluginNotSubscriptable
  | nameErrorUnboundLocal (localName : String)
deriving DecidableEq, Repr

/-- One report dictionary entry for a single entity. -/
structure NodeStatus where
  id : String
  provisioning_status : String
  operating_status : Option String
deriving DecidableEq, Repr

/-- Value of the `healthmonitor` key of a pool report: the empty dictionary
`{}` or a health-monitor status dictionary. -/
inductive HmSlot where
  | empty
  | present (node : NodeStatus)
deriving DecidableEq, Repr

/-- Report dictionary of one l7 policy (with its rules). -/
structure PolicyR where
  node : NodeStatus
  rules : List NodeStatus
deriving DecidableEq, Repr

/-- Report dictionary of one pool (with members and health monitor). -/
structure PoolR where
  node : NodeStatus
  members : List NodeStatus
  healthmonitor : HmSlot
deriving DecidableEq, Repr

/-- Report dictionary of one listener (with pools and l7 policies). -/
structure ListenerR where
  node : NodeStatus
  pools : List PoolR
  l7policies : List PolicyR
deriving DecidableEq, Repr

/-- Top-level report dictionary of the load balancer. -/
structure LBR where
  node : NodeStatus
  listeners : List ListenerR
  pools : List PoolR
deriving DecidableEq, Repr

/-- Health-monitor entity fields read by the walk (health monitors have no
operating status column). -/
structure HealthMonitorE where
  id : String
  provisioning_status : String
  admin_state_up : Bool
deriving DecidableEq, Repr

/-- Member entity fields read by the walk. -/
structure MemberE where
  id : String
  provisioning_status : String
  operating_status : String
  admin_state_up : Bool
deriving DecidableEq, Repr

/-- L7 rule entity fields read by the walk (no operating status column). -/
structure L7RuleE where
  id : String
  provisioning_status : String
  admin_state_up : Bool
deriving DecidableEq, Repr

/-- L7 policy entity fields read by the walk (no operating status column). -/
structure L7PolicyE where
  id : String
  provisioning_status : String
  admin_state_up : Bool
  rules : List L7RuleE
deriving DecidableEq, Repr

/-- Pool entity fields read by the walk. -/
structure PoolE where
  id : String
  provisioning_status : String
  operating_status : String
  admin_state_up : Bool
  members : List MemberE
  healthmonitor : Option HealthMonitorE
deriving DecidableEq, Repr

/-- Listener entity fields read by the walk. -/
structure ListenerE where
  id : String
  provisioning_status : String
  operating_status : String
  admin_state_up : Bool
  default_pool : Option PoolE
  l7_policies : List L7PolicyE
deriving DecidableEq, Repr

/-- Load-balancer entity fields read by the walk.  `pools` is the full pool
collection of the load balancer (shared pools included). -/
structure LoadBalancerE where
  id : String
  provisioning_status : String
  operating_status : String
  admin_state_up : Bool
  listeners : List ListenerE
  pools : List PoolE
deriving DecidableEq, Repr

/-- Embeds `LoadBalancerPluginv2._is_degraded`: provisioning status ERROR, or
an operating status that is neither ONLINE nor NO_MONITOR; an excluded (or
absent) check is modelled by passing `none`. -/
def is_degraded (provisioning_status : String) (operating_status : Option String) :
    Bool :=
  (provisioning_status == "ERROR") ||
    (match operating_status with
     | some os => !(os == "ONLINE") && !(os == "NO_MONITOR")
     | none => false)

/-- Disabled rendering of a health monitor (no operating-status key). -/
def disable_healthmonitor (hm : HealthMonitorE) : NodeStatus :=
  ⟨hm.id, hm.provisioning_status, none⟩

/-- Disabled rendering of a member: operating status DISABLED. -/
def disable_member (m : MemberE) : NodeStatus :=
  ⟨m.id, m.provisioning_status, some "DISABLED"⟩

/-- Disabled rendering of an l7 rule (no operating-status key). -/
def disable_l7rule (r : L7RuleE) : NodeStatus :=
  ⟨r.id, r.provisioning_status, none⟩

/-- Disabled rendering of an l7 policy and its rules. -/
def disable_l7policy (p : L7PolicyE) : PolicyR :=
  ⟨⟨p.id, p.provisioning_status, none⟩, p.rules.map disable_l7rule⟩

/-- Disabled rendering of a pool, its members and its health monitor. -/
def disable_pool (p : PoolE) : PoolR :=
  ⟨⟨p.id, p.provisioning_status, some "DISABLED"⟩,
    p.members.map disable_member,
    match p.healthmonitor with
    | some hm => HmSlot.present (disable_healthmonitor hm)
    | none => HmSlot.empty⟩

/-- Disabled rendering of a listener, its default pool and its policies. -/
def disable_listener (l : ListenerE) : ListenerR :=
  ⟨⟨l.id, l.provisioning_status, some "DISABLED"⟩,
    (match l.default_pool with
     | some p => [disable_pool p]
     | none => []),
    l.l7_policies.map disable_l7policy⟩

/-- Disabled rendering of the whole load balancer (the source emits no pools
key in this rendering; the empty list stands for the absent key). -/
def disable_loadbalancer (lb : LoadBalancerE) : LBR :=
  ⟨⟨lb.id, lb.provisioning_status, some "DISABLED"⟩,
    lb.listeners.map disable_listener, []⟩

/-- Walks one l7 rule: returns its report entry and whether it marked its
ancestors (a degraded rule marks itself, its policy, its listener and the
load balancer). -/
def process_l7rule (rule : L7RuleE) : NodeStatus × Bool :=
  if !rule.admin_state_up then
    (disable_l7rule rule, false)
  else
    let rule_status : NodeStatus := ⟨rule.id, rule.provisioning_status, none⟩
    if is_degraded rule.provisioning_status none then
      ({ rule_status with operating_status := some "DEGRADED" }, true)
    else (rule_status, false)

/-- Walks the rules of one policy in order, collecting the mark flag. -/
def process_l7rules : List L7RuleE → List NodeStatus × Bool
  | [] => ([], false)
  | r :: rest =>
      let (n, m) := process_l7rule r
      let (ns, ms) := process_l7rules rest
      (n :: ns, m || ms)

/-- Walks one l7 policy: a degraded policy marks itself, its listener and the
load balancer; so does each degraded rule. -/
def process_l7policy (policy : L7PolicyE) : PolicyR × Bool :=
  if !policy.admin_state_up then (disable_l7policy policy, false)
  else
    let selfDegraded := is_degraded policy.provisioning_status none
    let (ruleNodes, rulesMark) := process_l7rules policy.rules
    let marked := selfDegraded || rulesMark
    (⟨⟨policy.id, policy.provisioning_status,
        if marked then some "DEGRADED" else none⟩, ruleNodes⟩, marked)

/-- Walks the policies of one listener in order. -/
def process_l7policies : List L7PolicyE → List PolicyR × Bool
  | [] => ([], false)
  | p :: rest =>
      let (r, m) := process_l7policy p
      let (rs, ms) := process_l7policies rest
      (r :: rs, m || ms)

/-- Walks one member: a degraded member marks its ancestors but not itself. -/
def process_member (m : MemberE) : NodeStatus × Bool :=
  if !m.admin_state_up then (disable_member m, false)
  else (⟨m.id, m.provisioning_status, some m.operating_status⟩,
        is_degraded m.provisioning_status (some m.operating_status))

/-- Walks the members of one pool in order. -/
def process_members : List MemberE → List NodeStatus × Bool
  | [] => ([], false)
  | m :: rest =>
      let (n, b) := process_member m
      let (ns, bs) := process_members rest
      (n :: ns, b || bs)

/-- Walks the health monitor of a listener's default pool: returns the value
bound to the `hm_status` local (which also becomes the pool report's
healthmonitor entry) and whether it marked the pool, listener and load
balancer. -/
def process_listener_pool_hm : Option HealthMonitorE → HmSlot × Bool
  | some hm =>
      if !hm.admin_state_up then (HmSlot.present (disable_healthmonitor hm), false)
      else (HmSlot.present ⟨hm.id, hm.provisioning_status, none⟩,
            is_degraded hm.provisioning_status none)
  | none => (HmSlot.empty, false)

/-- Walks an admin-enabled default pool of a listener.  The pool report is
appended to the listener (and, when its id is not yet among the load
balancer's pool reports, to the load balancer); then the degraded check runs:
on a degraded pool the source calls `self._set_degraded(self,
listener_status, lb_status)`, which attempts item assignment on the plugin
object and raises TypeError.  Otherwise members and the health monitor are
walked.  Returns the final pool report, whether it was appended to the load
balancer's pools, the upward mark for listener and load balancer, and the
value bound to `hm_status`. -/
def process_listener_default_pool (pool : PoolE) (lbPools : List PoolR) :
    Except PyError (PoolR × Bool × Bool × HmSlot) :=
  let addToLb := !(lbPools.any (fun ps => ps.node.id == pool.id))
  if is_degraded pool.provisioning_status (some pool.operating_status) then
    Except.error PyError.typeErrorPluginNotSubscriptable
  else
    let (memberNodes, membersMark) := process_members pool.members
    let (hmSlot, hmMark) := process_listener_pool_hm pool.healthmonitor
    let poolMarked := membersMark || hmMark
    Except.ok
      (⟨⟨pool.id, pool.provisioning_status,
          if poolMarked then some "DEGRADED" else some pool.operating_status⟩,
        memberNodes, hmSlot⟩,
        addToLb, membersMark || hmMark, hmSlot)

/-- Result of walking one listener. -/
structure ListenerOutcome where
  report : ListenerR
  bound : Bool
  addPool : Option PoolR
  lbMark : Bool
  hmBind : Option HmSlot
deriving Repr

/-- Walks one listener of the load balancer. -/
def process_listener (listener : ListenerE) (lbPools : List PoolR) :
    Except PyError ListenerOutcome :=
  if !listener.admin_state_up then
    Except.ok ⟨disable_listener listener, false, none, false, none⟩
  else
    let selfMark := is_degraded listener.provisioning_status
      (some listener.operating_status)
    let (policyRs, policiesMark) := process_l7policies listener.l7_policies
    match listener.default_pool with
    | none =>
        Except.ok ⟨⟨⟨listener.id, listener.provisioning_status,
            if policiesMark then some "DEGRADED"
            else some listener.operating_status⟩, [], policyRs⟩,
          true, none, selfMark || policiesMark, none⟩
    | some pool =>
        if !pool.admin_state_up then
          Except.ok ⟨⟨⟨listener.id, listener.provisioning_status,
              if policiesMark then some "DEGRADED"
              else some listener.operating_status⟩,
              [disable_pool pool], policyRs⟩,
            true, none, selfMark || policiesMark, none⟩
        else
          match process_listener_default_pool pool lbPools with
          | Except.error e => Except.error e
          | Except.ok (poolR, addToLb, upMark, hmSlot) =>
              let listenerMarked := policiesMark || upMark
              Except.ok ⟨⟨⟨listener.id, listener.provisioning_status,
                  if listenerMarked then some "DEGRADED"
                  else some listener.operating_status⟩,
                  [poolR], policyRs⟩,
                true,
                if addToLb then some poolR else none,
                selfMark || policiesMark || upMark,
                some hmSlot⟩

/-- State threaded through the listener loop.  Each listener report carries a
flag recording whether the `listener_status` local was bound to it (the last
flagged report is the one a later stale reference mutates). -/
structure ListenerLoopState where
  listeners : List (Bool × ListenerR)
  lbPools : List PoolR
  lbMarked : Bool
  hmVar : Option HmSlot
  hasBoundListener : Bool
deriving Repr

/-- Walks all listeners in order. -/
def process_listeners : List ListenerE → ListenerLoopState →
    Except PyError ListenerLoopState
  | [], st => Except.ok st
  | l :: rest, st =>
      match process_listener l st.lbPools with
      | Except.error e => Except.error e
      | Except.ok o =>
          process_listeners rest
            { listeners := st.listeners ++ [(o.bound, o.report)],
              lbPools := st.lbPools ++
                (match o.addPool with | some p => [p] | none => []),
              lbMarked := st.lbMarked || o.lbMark,
              hmVar := (match o.hmBind with | some s => some s | none => st.hmVar),
              hasBoundListener := st.hasBoundListener || o.bound }

/-- State threaded through the shared-pool loop. -/
structure SharedLoopState where
  lbPools : List PoolR
  lbMarked : Bool
  hmVar : Option HmSlot
  staleListenerMark : Bool
deriving Repr

/-- Walks one pool of the load balancer's pool collection that was not
already reported via a listener.  A degraded shared pool marks only the load
balancer.  The health-monitor handling reuses the `listener_status` and
`hm_status` locals of the listener loop: a degraded admin-enabled health
monitor marks the stale `listener_status` (NameError when no listener ever
bound it), and a disabled health monitor ends up overwritten by the stale
`hm_status` value (NameError when never bound). -/
def process_shared_pool (pool : PoolE) (hasBoundListener : Bool)
    (st : SharedLoopState) : Except PyError SharedLoopState :=
  if st.lbPools.any (fun ps => ps.node.id == pool.id) then Except.ok st
  else if !pool.admin_state_up then
    Except.ok { st with lbPools := st.lbPools ++ [disable_pool pool] }
  else
    let selfMark := is_degraded pool.provisioning_status (some pool.operating_status)
    let (memberNodes, membersMark) := process_members pool.members
    match pool.healthmonitor with
    | none =>
        let poolNode : NodeStatus := ⟨pool.id, pool.provisioning_status,
          if membersMark then some "DEGRADED" else some pool.operating_status⟩
        Except.ok
          { lbPools := st.lbPools ++ [⟨poolNode, memberNodes, HmSlot.empty⟩],
            lbMarked := st.lbMarked || selfMark || membersMark,
            hmVar := some HmSlot.empty,
            staleListenerMark := st.staleListenerMark }
    | some hm =>
        if hm.admin_state_up then
          let hmSlot := HmSlot.present ⟨hm.id, hm.provisioning_status, none⟩
          let hmDeg := is_degraded hm.provisioning_status none
          if hmDeg && !hasBoundListener then
            Except.error (PyError.nameErrorUnboundLocal "listener_status")
          else
            let poolMarked := membersMark || hmDeg
            let poolNode : NodeStatus := ⟨pool.id, pool.provisioning_status,
              if poolMarked then some "DEGRADED" else some pool.operating_status⟩
            Except.ok
              { lbPools := st.lbPools ++ [⟨poolNode, memberNodes, hmSlot⟩],
                lbMarked := st.lbMarked || selfMark || membersMark || hmDeg,
                hmVar := some hmSlot,
                staleListenerMark := st.staleListenerMark || hmDeg }
        else
          match st.hmVar with
          | none => Except.error (PyError.nameErrorUnboundLocal "hm_status")
          | some stale =>
              let poolNode : NodeStatus := ⟨pool.id, pool.provisioning_status,
                if membersMark then some "DEGRADED" else some pool.operating_status⟩
              Except.ok
                { lbPools := st.lbPools ++ [⟨poolNode, memberNodes, stale⟩],
                  lbMarked := st.lbMarked || selfMark || membersMark,
                  hmVar := some stale,
                  staleListenerMark := st.staleListenerMark }

/-- Walks all not-yet-reported pools in order. -/
def process_shared_pools : List PoolE → Bool → SharedLoopState →
    Except PyError SharedLoopState
  | [], _, st => Except.ok st
  | p :: rest, hasBound, st =>
      match process_shared_pool p hasBound st with
      | Except.error e => Except.error e
      | Except.ok st2 => process_shared_pools rest hasBound st2

/-- Marks the last bound listener report (scanning a reversed listener list)
with operating status DEGRADED: the effect of the stale `listener_status`
reference in the shared-pool loop. -/
def markLastBoundRev : List (Bool × ListenerR) → List (Bool × ListenerR)
  | [] => []
  | (b, r) :: rest =>
      if b then
        (b, { r with node := { r.node with operating_status := some "DEGRADED" } })
          :: rest
      else (b, r) :: markLastBoundRev rest

/-- Embeds `LoadBalancerPluginv2.statuses`: the full read-only status report
walk over the load balancer tree, returning either the report or the runtime
error the source raises. -/
def statuses (lb : LoadBalancerE) : Except PyError LBR :=
  if !lb.admin_state_up then Except.ok (disable_loadbalancer lb)
  else
    let lbSelfMark := is_degraded lb.provisioning_status (some lb.operating_status)
    match process_listeners lb.listeners ⟨[], [], lbSelfMark, none, false⟩ with
    | Except.error e => Except.error e
    | Except.ok lst =>
        match process_shared_pools lb.pools lst.hasBoundListener
            ⟨lst.lbPools, lst.lbMarked, lst.hmVar, false⟩ with
        | Except.error e => Except.error e
        | Except.ok sst =>
            let listeners1 :=
              if sst.staleListenerMark then
                (markLastBoundRev lst.listeners.reverse).reverse
              else lst.listeners
            Except.ok ⟨⟨lb.id, lb.provisioning_status,
                if sst.lbMarked then some "DEGRADED" else some lb.operating_status⟩,
              listeners1.map Prod.snd, sst.lbPools⟩

/-- Concrete failing input for the statuses walk: an admin-enabled ACTIVE
load balancer with one admin-enabled ACTIVE listener whose admin-enabled
default pool is ACTIVE but operationally OFFLINE (hence degraded). -/
def degradedPoolExample : LoadBalancerE :=
  ⟨"lb-1", "ACTIVE", "ONLINE", true,
    [⟨"listener-1", "ACTIVE", "ONLINE", true,
      some ⟨"pool-1", "ACTIVE", "OFFLINE", true, [], none⟩, []⟩],
    [⟨"pool-1", "ACTIVE", "OFFLINE", true, [], none⟩]⟩

end NeutronLbaas

namespace NeutronLbaas

/-! ## Theorems -/

/-- Helper: one-step unfolding of the polling loop. -/
theorem thread_op_loop_succ (backend : Nat → String) (i t n fuel : Nat) :
    thread_op_loop backend i t n (fuel + 1) =
      if n * i < t then
        if isSuccessStatus (backend n) then some Completion.successful_completion
        else if backend n == "ERROR" then some Completion.failed_completion
        else thread_op_loop backend i t (n + 1) fuel
      else some Completion.failed_completion := rfl

/-- Helper: with a positive poll interval and sufficient fuel the polling loop
always invokes some completion callback. -/
theorem thread_op_loop_total (backend : Nat → String) (i t : Nat) (hi : 0 < i) :
    ∀ fuel n, t ≤ n + fuel →
      ∃ c, thread_op_loop backend i t n (fuel + 1) = some c := by
  intro fuel
  induction fuel with
  | zero =>
      intro n hn
      have hni : ¬ n * i < t := by
        have := Nat.le_mul_of_pos_right n hi
        omega
      exact ⟨Completion.failed_completion, by rw [thread_op_loop_succ, if_neg hni]⟩
  | succ fuel ih =>
      intro n hn
      rw [thread_op_loop_succ]
      by_cases hni : n * i < t
      · rw [if_pos hni]
        by_cases hs : isSuccessStatus (backend n) = true
        · exact ⟨Completion.successful_completion, by simp [hs]⟩
        · by_cases he : (backend n == "ERROR") = true
          · exact ⟨Completion.failed_completion, by simp [hs, he]⟩
          · obtain ⟨c, hc⟩ := ih (n + 1) (by omega)
            refine ⟨c, ?_⟩
            simp only [Bool.not_eq_true] at hs he
            simp only [hs, he, Bool.false_eq_true, if_false]
            exact hc
      · exact ⟨Completion.failed_completion, by rw [if_neg hni]⟩

/-- Helper: if the k-th poll is the first to report a terminal status and it
happens strictly before the timeout, the loop completes successfully on an
ACTIVE or DELETED report and fails on an ERROR report. -/
theorem thread_op_loop_first_terminal (backend : Nat → String) (i t : Nat) (hi : 0 < i) :
    ∀ fuel n k, t ≤ n + fuel → n ≤ k → k * i < t →
      (∀ j, n ≤ j → j < k → isTerminalStatus (backend j) = false) →
      isTerminalStatus (backend k) = true →
      thread_op_loop backend i t n (fuel + 1) =
        some (if isSuccessStatus (backend k) then Completion.successful_completion
          else Completion.failed_completion) := by
  intro fuel
  induction fuel with
  | zero =>
      intro n k hfuel hnk hkt _ _
      exfalso
      have hk : k ≤ k * i := Nat.le_mul_of_pos_right k hi
      omega
  | succ fuel ih =>
      intro n k hfuel hnk hkt hmin hterm
      have hni : n * i < t := lt_of_le_of_lt (Nat.mul_le_mul_right i hnk) hkt
      rw [thread_op_loop_succ, if_pos hni]
      rcases Nat.lt_or_ge n k with hlt | hge
      · have hn : isTerminalStatus (backend n) = false := hmin n le_rfl hlt
        have hparts : isSuccessStatus (backend n) = false ∧
            (backend n == "ERROR") = false := by
          simpa [isTerminalStatus] using hn
        simp only [hparts.1, hparts.2, Bool.false_eq_true, if_false]
        exact ih (n + 1) k (by omega) hlt hkt
          (fun j hj1 hj2 => hmin j (by omega) hj2) hterm
      · have hnk2 : n = k := le_antisymm hnk hge
        subst hnk2
        by_cases hs : isSuccessStatus (backend n) = true
        · simp [hs]
        · have hs2 : isSuccessStatus (backend n) = false := by
            simpa using hs
          have he : (backend n == "ERROR") = true := by
            simp only [isTerminalStatus, Bool.or_eq_true] at hterm
            rcases hterm with h | h
            · exact absurd h (by simp [hs2])
            · exact h
          simp [hs2, he]

/-- Helper: if no poll strictly before the timeout reports a terminal status,
the loop runs the timeout down and invokes the failure callback. -/
theorem thread_op_loop_timeout (backend : Nat → String) (i t : Nat) (hi : 0 < i) :
    ∀ fuel n, t ≤ n + fuel →
      (∀ k, n ≤ k → k * i < t → isTerminalStatus (backend k) = false) →
      thread_op_loop backend i t n (fuel + 1) = some Completion.failed_completion := by
  intro fuel
  induction fuel with
  | zero =>
      intro n hfuel _
      have hni : ¬ n * i < t := by
        have := Nat.le_mul_of_pos_right n hi
        omega
      rw [thread_op_loop_succ, if_neg hni]
  | succ fuel ih =>
      intro n hfuel hnone
      rw [thread_op_loop_succ]
      by_cases hni : n * i < t
      · rw [if_pos hni]
        have hn := hnone n le_rfl hni
        have hparts : isSuccessStatus (backend n) = false ∧
            (backend n == "ERROR") = false := by
          simpa [isTerminalStatus] using hn
        simp only [hparts.1, hparts.2, Bool.false_eq_true, if_false]
        exact ih (n + 1) (by omega) (fun k hk1 hk2 => hnone k (by omega) hk2)
      · rw [if_neg hni]

/-- C2: for every sequence of provisioning statuses reported by the polled
backend, the reconciler task `thread_op` (with a positive poll interval)
terminates and invokes exactly one completion callback: successful_completion
when the first terminal status polled strictly before the timeout is ACTIVE or
DELETED, failed_completion when it is ERROR, and failed_completion when the
timeout elapses with no poll reporting a terminal status. -/
theorem thread_op_completion (backend : Nat → String)
    (poll_interval poll_timeout : Nat) (hi : 0 < poll_interval) :
    ∃ c, thread_op backend poll_interval poll_timeout = some c ∧
      (∀ k, k * poll_interval < poll_timeout →
        (∀ j, j < k → isTerminalStatus (backend j) = false) →
        ((backend k = "ACTIVE" ∨ backend k = "DELETED") →
            c = Completion.successful_completion) ∧
        (backend k = "ERROR" → c = Completion.failed_completion)) ∧
      ((∀ k, k * poll_interval < poll_timeout →
          isTerminalStatus (backend k) = false) →
        c = Completion.failed_completion) := by
  obtain ⟨c, hc⟩ := thread_op_loop_total backend poll_interval poll_timeout hi
    poll_timeout 0 (by omega)
  refine ⟨c, hc, ?_, ?_⟩
  · intro k hk hmin
    constructor
    · intro hAD
      have hsucc : isSuccessStatus (backend k) = true := by
        rcases hAD with h | h <;> simp [isSuccessStatus, h]
      have hterm : isTerminalStatus (backend k) = true := by
        simp [isTerminalStatus, hsucc]
      have heq := thread_op_loop_first_terminal backend poll_interval poll_timeout hi
        poll_timeout 0 k (by omega) (Nat.zero_le k) hk
        (fun j _ hj => hmin j hj) hterm
      have hc2 : thread_op_loop backend poll_interval poll_timeout 0
          (poll_timeout + 1) = some c := hc
      rw [heq] at hc2
      simp only [hsucc, if_true] at hc2
      exact (Option.some_inj.mp hc2).symm
    · intro hE
      have hsucc : isSuccessStatus (backend k) = false := by
        simp [isSuccessStatus, hE]
      have hterm : isTerminalStatus (backend k) = true := by
        simp [isTerminalStatus, hsucc, hE]
      have heq := thread_op_loop_first_terminal backend poll_interval poll_timeout hi
        poll_timeout 0 k (by omega) (Nat.zero_le k) hk
        (fun j _ hj => hmin j hj) hterm
      have hc2 : thread_op_loop backend poll_interval poll_timeout 0
          (poll_timeout + 1) = some c := hc
      rw [heq] at hc2
      simp only [hsucc, Bool.false_eq_true, if_false] at hc2
      exact (Option.some_inj.mp hc2).symm
  · intro hnone
    have heq := thread_op_loop_timeout backend poll_interval poll_timeout hi
      poll_timeout 0 (by omega) (fun k _ hk => hnone k hk)
    have hc2 : thread_op_loop backend poll_interval poll_timeout 0
        (poll_timeout + 1) = some c := hc
    rw [heq] at hc2
    exact (Option.some_inj.mp hc2).symm

/-- Witness for C2 at the default configuration (poll interval 3, poll
timeout 100) against a backend that immediately reports ACTIVE. -/
theorem thread_op_completion_witness :
    ∃ c, thread_op (fun _ => "ACTIVE") 3 100 = some c ∧
      (∀ k, k * 3 < 100 →
        (∀ j, j < k → isTerminalStatus ((fun _ => "ACTIVE") j) = false) →
        (((fun _ => "ACTIVE") k = "ACTIVE" ∨ (fun _ => "ACTIVE") k = "DELETED") →
            c = Completion.successful_completion) ∧
        ((fun _ => "ACTIVE") k = "ERROR" → c = Completion.failed_completion)) ∧
      ((∀ k, k * 3 < 100 → isTerminalStatus ((fun _ => "ACTIVE") k) = false) →
        c = Completion.failed_completion) :=
  thread_op_completion (fun _ => "ACTIVE") 3 100 (by decide)

/-- Helper: every entry readable from the folded stats dictionary either was
produced by some server row of the list or was already in the accumulator. -/
theorem serversStatsFold_sound (rows : List StatRow) :
    ∀ (acc : String → Option ServerStats) (name : String) (entry : ServerStats),
      rows.foldl serversStatsStep acc name = some entry →
      (∃ r, r ∈ rows ∧ r.type = STATS_TYPE_SERVER_RESPONSE ∧ r.svname = name ∧
        entry = serverEntry r) ∨ acc name = some entry := by
  induction rows with
  | nil => intro acc name entry h; exact Or.inr h
  | cons r rs ih =>
      intro acc name entry h
      rcases ih (serversStatsStep acc r) name entry h with hin | hacc
      · rcases hin with ⟨r0, hr0, ht, hn, he⟩
        exact Or.inl ⟨r0, List.mem_cons_of_mem r hr0, ht, hn, he⟩
      · unfold serversStatsStep at hacc
        by_cases ht : r.type = STATS_TYPE_SERVER_RESPONSE
        · simp only [ht, beq_self_eq_true, if_true] at hacc
          by_cases hn : name = r.svname
          · simp only [hn, if_true] at hacc
            exact Or.inl ⟨r, List.mem_cons_self r rs, ht, hn.symm,
              (Option.some_inj.mp hacc).symm⟩
          · simp only [hn, if_false] at hacc
            exact Or.inr hacc
        · have : (r.type == STATS_TYPE_SERVER_RESPONSE) = false := by
            simpa using ht
          simp only [this, Bool.false_eq_true, if_false] at hacc
          exact Or.inr hacc

/-- Helper: a server row of the list guarantees an entry for its server name
in the folded stats dictionary. -/
theorem serversStatsFold_total (rows : List StatRow) :
    ∀ (acc : String → Option ServerStats) (name : String),
      ((acc name).isSome ∨ ∃ r, r ∈ rows ∧ r.type = STATS_TYPE_SERVER_RESPONSE ∧
        r.svname = name) →
      (rows.foldl serversStatsStep acc name).isSome := by
  induction rows with
  | nil =>
      intro acc name h
      rcases h with h | ⟨r, hr, _⟩
      · exact h
      · exact absurd hr (List.not_mem_nil r)
  | cons r rs ih =>
      intro acc name h
      apply ih
      rcases h with hacc | ⟨r0, hr0, ht, hn⟩
      · left
        unfold serversStatsStep
        split
        · by_cases hn : name = r.svname <;> simp [hn, hacc]
        · exact hacc
      · rcases List.mem_cons.mp hr0 with rfl | hmem
        · left
          unfold serversStatsStep
          simp [ht, hn.symm]
        · exact Or.inr ⟨r0, hmem, ht, hn⟩

/-- C8: every entry of the dictionary returned by `_get_servers_stats` is the
classification of some server-typed row of the parsed stats — INACTIVE when
that row's reported status string equals DOWN and ACTIVE for every other
status string, together with the row's health-check status and failed-check
count — and every server-typed row yields an entry under its server name. -/
theorem get_servers_stats_classification (rows : List StatRow) :
    (∀ row, row ∈ rows → row.type = STATS_TYPE_SERVER_RESPONSE →
      (get_servers_stats rows row.svname).isSome) ∧
    (∀ name entry, get_servers_stats rows name = some entry →
      ∃ r, r ∈ rows ∧ r.type = STATS_TYPE_SERVER_RESPONSE ∧ r.svname = name ∧
        entry.status = (if r.status = "DOWN" then "INACTIVE" else "ACTIVE") ∧
        entry.health = r.check_status ∧ entry.failed_checks = r.chkfail) := by
  constructor
  · intro row hmem ht
    exact serversStatsFold_total rows (fun _ => none) row.svname
      (Or.inr ⟨row, hmem, ht, rfl⟩)
  · intro name entry h
    rcases serversStatsFold_sound rows (fun _ => none) name entry h with
      ⟨r, hr, ht, hn, he⟩ | hnone
    · refine ⟨r, hr, ht, hn, ?_, ?_, ?_⟩ <;> simp [he, serverEntry]
    · exact absurd hnone (by simp)

/-- Witness for C8 at a concrete parsed stats list with one DOWN server and
one UP server. -/
theorem get_servers_stats_classification_witness :
    (get_servers_stats [⟨"2", "s1", "DOWN", "L7STS", "3"⟩] "s1").isSome ∧
    (∃ r, r ∈ ([⟨"2", "s1", "DOWN", "L7STS", "3"⟩] : List StatRow) ∧
      r.type = STATS_TYPE_SERVER_RESPONSE ∧ r.svname = "s1" ∧
      (⟨"INACTIVE", "L7STS", "3"⟩ : ServerStats).status =
        (if r.status = "DOWN" then "INACTIVE" else "ACTIVE") ∧
      (⟨"INACTIVE", "L7STS", "3"⟩ : ServerStats).health = r.check_status ∧
      (⟨"INACTIVE", "L7STS", "3"⟩ : ServerStats).failed_checks = r.chkfail) :=
  ⟨(get_servers_stats_classification [⟨"2", "s1", "DOWN", "L7STS", "3"⟩]).1
      ⟨"2", "s1", "DOWN", "L7STS", "3"⟩ (List.mem_singleton.mpr rfl) rfl,
    (get_servers_stats_classification [⟨"2", "s1", "DOWN", "L7STS", "3"⟩]).2
      "s1" ⟨"INACTIVE", "L7STS", "3"⟩ (by decide)⟩

/-- C7: the async_op wrapper starts exactly one background reconciliation
thread when the wrapped driver call returns normally, with the delete flag set
iff the wrapped operation is a delete and the lb_create flag set iff it is a
create on the load-balancer manager; when the wrapped call raises, it calls
failed_completion, starts no thread, and re-raises the exception. -/
theorem async_op_contract {R E : Type} (funcName : String)
    (isLoadBalancerManager : Bool) (call : Except E R) :
    (∀ r, call = Except.ok r →
      async_op funcName isLoadBalancerManager call =
        { result := Except.ok r, failedCompletionCalled := false,
          startedThreads := [⟨funcName == "delete",
            funcName == "create" && isLoadBalancerManager⟩] }) ∧
    (∀ e, call = Except.error e →
      async_op funcName isLoadBalancerManager call =
        { result := Except.error e, failedCompletionCalled := true,
          startedThreads := [] }) := by
  constructor
  · intro r h; subst h; rfl
  · intro e h; subst h; rfl

/-- Witness for C7: a successful load-balancer create starts one thread with
lb_create set, and a failed delete starts none and re-raises. -/
theorem async_op_contract_witness :
    async_op "create" true (Except.ok "lb" : Except String String) =
      { result := Except.ok "lb", failedCompletionCalled := false,
        startedThreads := [⟨false, true⟩] } ∧
    async_op "delete" false (Except.error "boom" : Except String String) =
      { result := Except.error "boom", failedCompletionCalled := true,
        startedThreads := [] } :=
  ⟨(async_op_contract "create" true (Except.ok "lb")).1 "lb" rfl,
    (async_op_contract "delete" false (Except.error "boom")).2 "boom" rfl⟩

/-- C9: the namespace-driver load-balancer delete is idempotent with respect
to already-gone backend state: when no deployed instance exists it performs no
action at all (in particular no undeploy) and returns without raising, and an
undeploy is performed only when the instance exists. -/
theorem loadbalancer_manager_delete_idempotent (instanceExists : Bool) :
    (instanceExists = false → loadbalancer_manager_delete instanceExists = []) ∧
    (∀ dns, HaproxyAction.undeployInstance dns ∈
        loadbalancer_manager_delete instanceExists → instanceExists = true) := by
  cases instanceExists <;> simp [loadbalancer_manager_delete]

/-- Witness for C9: deleting with no deployed instance performs nothing. -/
theorem loadbalancer_manager_delete_idempotent_witness :
    loadbalancer_manager_delete false = [] :=
  (loadbalancer_manager_delete_idempotent false).1 rfl

/-- C10: with an empty listeners list the namespace-driver load-balancer
create performs no backend action (no deploy, no refresh), and the
deployability predicate holds exactly when some listener is admin-enabled and
not PENDING_DELETE, the load balancer is admin-enabled, and the load balancer
is not PENDING_DELETE; in particular a load balancer without listeners is
never deployable. -/
theorem loadbalancer_manager_create_empty (lb : HaLoadBalancer) :
    (lb.listeners = [] → loadbalancer_manager_create lb = []) ∧
    (deployable (some lb) = true ↔
      ((∃ l, l ∈ lb.listeners ∧ l.provisioning_status ≠ "PENDING_DELETE" ∧
          l.admin_state_up = true) ∧
        lb.admin_state_up = true ∧ lb.provisioning_status ≠ "PENDING_DELETE")) ∧
    (lb.listeners = [] → deployable (some lb) = false) ∧
    deployable none = false := by
  refine ⟨?_, ?_, ?_, rfl⟩
  · intro h; simp [loadbalancer_manager_create, h]
  · simp only [deployable, Bool.and_eq_true, Bool.not_eq_true',
      List.isEmpty_eq_false_iff_exists_mem, List.mem_filter, beq_eq_false_iff_ne, ne_eq]
    constructor
    · rintro ⟨⟨⟨l, hmem, hlp, hla⟩, hadmin⟩, hpd⟩
      exact ⟨⟨l, hmem, hlp, hla⟩, hadmin, hpd⟩
    · rintro ⟨⟨l, hmem, hlp, hla⟩, hadmin, hpd⟩
      refine ⟨⟨⟨l, hmem, ?_⟩, hadmin⟩, hpd⟩
      simp [hlp, hla]
  · intro h
    simp [deployable, h]

/-- Witness for C10 at a concrete load balancer with no listeners. -/
theorem loadbalancer_manager_create_empty_witness :
    loadbalancer_manager_create ⟨"ACTIVE", true, []⟩ = [] ∧
    deployable (some ⟨"ACTIVE", true, []⟩) = false :=
  ⟨(loadbalancer_manager_create_empty ⟨"ACTIVE", true, []⟩).1 rfl,
    (loadbalancer_manager_create_empty ⟨"ACTIVE", true, []⟩).2.2.1 rfl⟩

/-- C1 counterexample: the claim that every driver exception marks the root
load balancer ERROR and is re-raised as a DriverError fails for the
agent-scheduler exception NoEligibleLbaasAgent, which `_call_driver_operation`
re-raises unchanged, leaving the root load balancer status untouched. -/
theorem call_driver_operation_agent_exception_cex :
    ¬ (((call_driver_operation ⟨"ACTIVE"⟩
          (some DriverException.NoEligibleLbaasAgent)).1.rootLbProvisioningStatus = "ERROR") ∧
       ((call_driver_operation ⟨"ACTIVE"⟩
          (some DriverException.NoEligibleLbaasAgent)).2 =
          some (DispatcherRaise.driverError DriverException.NoEligibleLbaasAgent))) := by
  decide

/-- C1 (amended): for every driver exception other than the two
agent-scheduler exceptions, `_call_driver_operation` sets the root load
balancer's provisioning status to ERROR and raises a DriverError carrying the
original cause; the agent-scheduler exceptions NoEligibleLbaasAgent and
NoActiveLbaasAgent are re-raised unchanged with no status mutation. -/
theorem call_driver_operation_error_handling (st : DispatchState) (e : DriverException)
    (h1 : e ≠ DriverException.NoEligibleLbaasAgent)
    (h2 : e ≠ DriverException.NoActiveLbaasAgent) :
    call_driver_operation st (some e) =
      ({ rootLbProvisioningStatus := "ERROR" }, some (DispatcherRaise.driverError e)) ∧
    call_driver_operation st (some DriverException.NoEligibleLbaasAgent) =
      (st, some (DispatcherRaise.reRaised DriverException.NoEligibleLbaasAgent)) ∧
    call_driver_operation st (some DriverException.NoActiveLbaasAgent) =
      (st, some (DispatcherRaise.reRaised DriverException.NoActiveLbaasAgent)) := by
  refine ⟨?_, rfl, rfl⟩
  cases e with
  | NoEligibleLbaasAgent => exact absurd rfl h1
  | NoActiveLbaasAgent => exact absurd rfl h2
  | otherException msg => rfl

/-- Witness for the amended C1 theorem at a concrete non-agent exception. -/
theorem call_driver_operation_error_handling_witness :
    call_driver_operation ⟨"ACTIVE"⟩ (some (DriverException.otherException "boom")) =
      ({ rootLbProvisioningStatus := "ERROR" },
        some (DispatcherRaise.driverError (DriverException.otherException "boom"))) :=
  (call_driver_operation_error_handling ⟨"ACTIVE"⟩
    (DriverException.otherException "boom") (by decide) (by decide)).1

/-- C3: deleting a pool with an attached health monitor raises the typed
EntityInUse error and performs no action at all: no status transition is
attempted on the pool and the driver is never invoked, so the stored pool
state is unchanged by the failed delete. -/
theorem delete_pool_entity_in_use (pool : PoolSnapshot)
    (h : pool.healthmonitorId.isSome) :
    delete_pool pool = ([], some (LbaasV2Error.EntityInUse "healthmonitor" "pool")) := by
  unfold delete_pool
  cases hm : pool.healthmonitorId with
  | some hid => rfl
  | none => rw [hm] at h; simp [Option.isSome] at h

/-- Witness for C3 at a concrete pool with a health monitor attached. -/
theorem delete_pool_entity_in_use_witness :
    delete_pool ⟨"ACTIVE", some "hm-1"⟩ =
      ([], some (LbaasV2Error.EntityInUse "healthmonitor" "pool")) :=
  delete_pool_entity_in_use ⟨"ACTIVE", some "hm-1"⟩ (by decide)

/-- C4: session-persistence validation accepts an absent descriptor; rejects
APP_COOKIE without a cookie_name; rejects any other type carrying a
cookie_name; and accepts APP_COOKIE with a non-empty cookie_name. -/
theorem session_persistence_validation (info : SessionPersistenceInfo) (s : String) :
    (validate_session_persistence_info none = none) ∧
    (info.type = "APP_COOKIE" → info.cookie_name = none →
      validate_session_persistence_info (some info) =
        some SPValidationError.SessionPersistenceConfigurationInvalid) ∧
    (info.type ≠ "APP_COOKIE" → info.cookie_name.isSome →
      validate_session_persistence_info (some info) =
        some SPValidationError.SessionPersistenceConfigurationInvalid) ∧
    (info.type = "APP_COOKIE" → info.cookie_name = some s → s ≠ "" →
      validate_session_persistence_info (some info) = none) := by
  refine ⟨rfl, ?_, ?_, ?_⟩
  · intro ht hc
    simp [validate_session_persistence_info, SESSION_PERSISTENCE_APP_COOKIE,
      cookieNameTruthy, ht, hc]
  · intro ht hc
    simp [validate_session_persistence_info, SESSION_PERSISTENCE_APP_COOKIE, ht, hc]
  · intro ht hc hs
    simp [validate_session_persistence_info, SESSION_PERSISTENCE_APP_COOKIE,
      cookieNameTruthy, ht, hc, hs]

/-- Witness for C4: APP_COOKIE with a non-empty cookie name is accepted. -/
theorem session_persistence_validation_witness :
    validate_session_persistence_info (some ⟨"APP_COOKIE", some "sid"⟩) = none :=
  (session_persistence_validation ⟨"APP_COOKIE", some "sid"⟩ "sid").2.2.2
    rfl rfl (by decide)

/-- C6: health-monitor create and update raise DelayOrTimeoutInvalid exactly
when the effective delay is strictly less than the effective timeout, and in
that case no row is created or modified (the action list is empty). -/
theorem hm_delay_timeout_validation (d t od ot : Int) (nd nt : Option Int)
    (ps : List String) :
    ((create_health_monitor d t).2 = some LbaasV1Error.DelayOrTimeoutInvalid ↔ d < t) ∧
    (d < t → (create_health_monitor d t).1 = []) ∧
    ((update_health_monitor nd nt od ot ps).2 =
        some LbaasV1Error.DelayOrTimeoutInvalid ↔ nd.getD od < nt.getD ot) ∧
    (nd.getD od < nt.getD ot → (update_health_monitor nd nt od ot ps).1 = []) := by
  refine ⟨?_, ?_, ?_, ?_⟩ <;>
    simp [create_health_monitor, update_health_monitor, validate_hm_parameters] <;>
    split <;> simp_all

/-- Witness for C6: delay 2 strictly below timeout 5 is rejected on create
with no row created, and on update with no row modified. -/
theorem hm_delay_timeout_validation_witness :
    (create_health_monitor 2 5).2 = some LbaasV1Error.DelayOrTimeoutInvalid ∧
    (create_health_monitor 2 5).1 = [] ∧
    (update_health_monitor (some 2) none 7 5 ["p1"]).2 =
      some LbaasV1Error.DelayOrTimeoutInvalid := by
  refine ⟨(hm_delay_timeout_validation 2 5 7 5 (some 2) none ["p1"]).1.mpr (by decide),
    (hm_delay_timeout_validation 2 5 7 5 (some 2) none ["p1"]).2.1 (by decide),
    (hm_delay_timeout_validation 2 5 7 5 (some 2) none ["p1"]).2.2.1.mpr (by decide)⟩

/-- C5 (code bug): on a load balancer tree with every entity admin-enabled in
which a listener's default pool is degraded (provisioning ACTIVE but
operating status OFFLINE), the statuses walk does not return a report marking
the pool's ancestors DEGRADED; it raises a TypeError, because the
degraded-default-pool branch passes the plugin object itself (instead of the
pool's report dictionary) to the degraded-marking helper, which then attempts
item assignment on a non-dictionary object. -/
theorem statuses_degraded_pool_type_error :
    statuses degradedPoolExample =
      Except.error PyError.typeErrorPluginNotSubscriptable := by rfl

end NeutronLbaas
